import Mathlib

/-!
Shallow embedding of `ByteStreamController`
(`src/TestTaskSecondSGK/include/async_controller.hpp`,
`src/TestTaskSecondSGK/src/async_controller.cpp`).

The controller owns a byte buffer (modelled as `List Nat`, FIFO: appended at
the tail, consumed from the head), an immutable capacity `max_buffer_size_`,
and a boolean `stopped_` flag.  The mutex and the condition variable serialize
the public operations, so the sequential model below runs each public call
atomically on the state.  `cv_.wait_for(lock, timeout, pred)` returns the
value of `pred`: in a sequential run the state does not change while the
consumer waits, so the wait outcome is `pred` evaluated at the call state;
the timeout duration itself is kept only as an inert parameter.

`sync_get_data` computes `actual_bytes = max(min(size, max_bytes), min_bytes)`
and then reads and erases `[begin, begin + actual_bytes)` from the vector
`buffer_`.  When `actual_bytes > size` that access is past the end of the
vector — undefined behaviour in C++ — which the model makes explicit by
returning `none` in exactly that case.
-/

/-- Error codes of the controller (`enum class ErrorCode`,
`async_controller.hpp` lines 59-64). -/
inductive ErrorCode where
  | NoError
  | BufferOverflow
  | ControllerStopped
  | Timeout
deriving DecidableEq, Repr

/-- State of a `ByteStreamController`: the data members `buffer_`,
`max_buffer_size_`, `stopped_` (`async_controller.hpp` lines 156-160).
The mutex and condition variable carry no sequential content. -/
structure ByteStreamController where
  max_buffer_size : Nat
  buffer : List Nat
  stopped : Bool
deriving DecidableEq, Repr

/-- Result of `sync_get_data` (`struct Result`, `async_controller.hpp`
lines 70-81). -/
structure Result where
  data : List Nat
  error : ErrorCode
  dropped_bytes : Nat
  buffer_size : Nat
deriving DecidableEq, Repr

namespace ByteStreamController

/-- The constructor (`async_controller.cpp` lines 3-6): stores the capacity,
starts with an empty buffer and `stopped_ = false`.  `buffer_.reserve` has no
observable effect.  No validation of `max_buffer_size` is performed. -/
def create (max_buffer_size : Nat) : ByteStreamController :=
  ⟨max_buffer_size, [], false⟩

/-- Operation `stop()` (`async_controller.cpp` lines 10-16): sets the stopped
flag. -/
def stop (c : ByteStreamController) : ByteStreamController :=
  { c with stopped := true }

/-- Operation `start()` (`async_controller.cpp` lines 18-22): clears the
stopped flag. -/
def start (c : ByteStreamController) : ByteStreamController :=
  { c with stopped := false }

/-- Observer `current_buffer_size()` (`async_controller.cpp` lines 74-77). -/
def current_buffer_size (c : ByteStreamController) : Nat :=
  c.buffer.length

/-- Observer `is_stopped()` (`async_controller.cpp` lines 79-81). -/
def is_stopped (c : ByteStreamController) : Bool :=
  c.stopped

/-- Operation `async_add_data(data)` (`async_controller.cpp` lines 24-42):
if stopped, fail with `ControllerStopped`; if `buffer_.size() + data.size()`
exceeds the capacity, fail with `BufferOverflow`; otherwise append `data` at
the tail. -/
def async_add_data (c : ByteStreamController) (data : List Nat) :
    ErrorCode × ByteStreamController :=
  if c.stopped then
    (ErrorCode.ControllerStopped, c)
  else if c.buffer.length + data.length > c.max_buffer_size then
    (ErrorCode.BufferOverflow, c)
  else
    (ErrorCode.NoError, { c with buffer := c.buffer ++ data })

/-- Wait predicate of `sync_get_data` (`async_controller.cpp` lines 48-49):
`stopped_ || buffer_.size() >= min_bytes`. -/
def wait_pred (c : ByteStreamController) (min_bytes : Nat) : Bool :=
  c.stopped || decide (c.buffer.length ≥ min_bytes)

/-- Local `bytes_to_take` of `sync_get_data` (`async_controller.cpp` line 58):
`std::min({buffer_.size(), max_bytes})`. -/
def bytes_to_take (c : ByteStreamController) (max_bytes : Nat) : Nat :=
  min c.buffer.length max_bytes

/-- Local `actual_bytes` of `sync_get_data` (`async_controller.cpp` line 59):
`std::max(bytes_to_take, min_bytes)`. -/
def actual_bytes (c : ByteStreamController) (min_bytes max_bytes : Nat) : Nat :=
  max (bytes_to_take c max_bytes) min_bytes

/-- Operation `sync_get_data(min_bytes, max_bytes, timeout)`
(`async_controller.cpp` lines 44-72).  If the wait ends with the predicate
false, return `Timeout` with empty data.  If stopped with an empty buffer,
return `ControllerStopped` with empty data.  Otherwise take
`actual_bytes = max(min(buffer_.size(), max_bytes), min_bytes)` bytes from
the head and return them with `NoError`; when `actual_bytes` exceeds the
buffer length the C++ code reads and erases past the end of the vector
(undefined behaviour), modelled as `none`. -/
def sync_get_data (c : ByteStreamController) (min_bytes max_bytes : Nat)
    (_timeout : Nat) : Option (Result × ByteStreamController) :=
  if wait_pred c min_bytes = false then
    some (⟨[], ErrorCode.Timeout, 0, c.buffer.length⟩, c)
  else if c.stopped && c.buffer.isEmpty then
    some (⟨[], ErrorCode.ControllerStopped, 0, 0⟩, c)
  else if actual_bytes c min_bytes max_bytes ≤ c.buffer.length then
    some (⟨c.buffer.take (actual_bytes c min_bytes max_bytes),
             ErrorCode.NoError, 0,
             (c.buffer.drop (actual_bytes c min_bytes max_bytes)).length⟩,
          { c with buffer := c.buffer.drop (actual_bytes c min_bytes max_bytes) })
  else
    none

/-- Runs a sequence of `async_add_data` calls, threading the state
(a single producer calling the controller repeatedly). -/
def appendSeq (c : ByteStreamController) (chunks : List (List Nat)) :
    ByteStreamController :=
  chunks.foldl (fun acc d => (async_add_data acc d).2) c

/-- Holds when every `async_add_data` call in the sequence returns
`NoError`. -/
def appendSeqOk (c : ByteStreamController) (chunks : List (List Nat)) : Bool :=
  match chunks with
  | [] => true
  | d :: rest =>
      decide ((async_add_data c d).1 = ErrorCode.NoError) &&
        appendSeqOk (async_add_data c d).2 rest

/-- States reachable from a freshly constructed controller by any sequence of
the public operations.  `current_buffer_size` and `is_stopped` are `const`
(`async_controller.hpp` lines 141-147) and do not change the state; a
`sync_get_data` call whose extraction would go past the end of the buffer has
undefined behaviour and yields no successor state. -/
inductive Reachable (cap : Nat) : ByteStreamController → Prop where
  | init : Reachable cap (create cap)
  | add (c : ByteStreamController) (data : List Nat) :
      Reachable cap c → Reachable cap (async_add_data c data).2
  | get (c : ByteStreamController) (min_bytes max_bytes t : Nat) (r : Result)
      (c' : ByteStreamController) : Reachable cap c →
      sync_get_data c min_bytes max_bytes t = some (r, c') → Reachable cap c'
  | stop (c : ByteStreamController) :
      Reachable cap c → Reachable cap (ByteStreamController.stop c)
  | start (c : ByteStreamController) :
      Reachable cap c → Reachable cap (ByteStreamController.start c)

/-- Inversion of `sync_get_data`: a defined call lands in exactly one of the
three result-producing branches, and the result and successor state are the
ones that branch builds. -/
theorem sync_get_data_inv {c : ByteStreamController}
    {min_bytes max_bytes t : Nat} {r : Result} {c' : ByteStreamController}
    (h : sync_get_data c min_bytes max_bytes t = some (r, c')) :
    (wait_pred c min_bytes = false ∧
       r = ⟨[], ErrorCode.Timeout, 0, c.buffer.length⟩ ∧ c' = c) ∨
    (c.stopped = true ∧ c.buffer = [] ∧
       r = ⟨[], ErrorCode.ControllerStopped, 0, 0⟩ ∧ c' = c) ∨
    (actual_bytes c min_bytes max_bytes ≤ c.buffer.length ∧
       r = ⟨c.buffer.take (actual_bytes c min_bytes max_bytes),
              ErrorCode.NoError, 0,
              (c.buffer.drop (actual_bytes c min_bytes max_bytes)).length⟩ ∧
       c' = { c with
                buffer := c.buffer.drop (actual_bytes c min_bytes max_bytes) }) := by
  unfold sync_get_data at h
  split at h
  · rename_i hp
    simp only [Option.some.injEq, Prod.mk.injEq] at h
    exact Or.inl ⟨hp, h.1.symm, h.2.symm⟩
  · split at h
    · rename_i hse
      simp only [Bool.and_eq_true, List.isEmpty_iff] at hse
      simp only [Option.some.injEq, Prod.mk.injEq] at h
      exact Or.inr (Or.inl ⟨hse.1, hse.2, h.1.symm, h.2.symm⟩)
    · split at h
      · rename_i hle
        simp only [Option.some.injEq, Prod.mk.injEq] at h
        exact Or.inr (Or.inr ⟨hle, h.1.symm, h.2.symm⟩)
      · exact absurd h (by simp)

/-- Claim C1 (code bug): at a concrete in-bounds input the code removes
`actual_bytes = max(min(size, max_bytes), min_bytes)` bytes, not the
`min(size, max_bytes)` bytes the specification states.  With buffer
`[7,8,9,10]`, `min_bytes = 4`, `max_bytes = 2`, the call removes and returns
all 4 bytes with `NoError`, while `min(4, 2) = 2`. -/
theorem sync_get_data_removes_more_than_min_size_max :
    sync_get_data ⟨5, [7, 8, 9, 10], false⟩ 4 2 9 =
      some (⟨[7, 8, 9, 10], ErrorCode.NoError, 0, 0⟩, ⟨5, [], false⟩) ∧
    (4 : Nat) ≠ min (List.length ([7, 8, 9, 10] : List Nat)) 2 := by
  decide

/-- Claim C2 (code bug): on a stopped controller holding 1 byte, a call with
`min_bytes = 2`, `max_bytes = 5` computes `actual_bytes = 2`, which exceeds
the buffer length, so the extraction reads and erases past the end of the
vector — the model returns `none` for exactly this out-of-bounds case. -/
theorem sync_get_data_out_of_bounds_stopped_short :
    List.length [42] < actual_bytes ⟨5, [42], true⟩ 2 5 ∧
    sync_get_data ⟨5, [42], true⟩ 2 5 9 = none := by
  decide

/-- Counterexample to claim C3: draining a stopped controller that still holds
`[1,2,3]` with `take(min_bytes = 0, max_bytes = 10)` returns the 3 bytes with
status `NoError`, not `ControllerStopped` as the claim states. -/
theorem drain_status_counterexample :
    sync_get_data ⟨10, [1, 2, 3], true⟩ 0 10 5 =
      some (⟨[1, 2, 3], ErrorCode.NoError, 0, 0⟩, ⟨10, [], true⟩) ∧
    ErrorCode.NoError ≠ ErrorCode.ControllerStopped := by
  decide

/-- Claim C3 (amended): a `sync_get_data` on a stopped controller with an
empty buffer returns `ControllerStopped` with empty data; a `sync_get_data`
on a stopped controller with a non-empty buffer reports `NoError` (not
`ControllerStopped`) whenever it is defined; and every defined call that
reports `NoError` returns at least `min_bytes` bytes. -/
theorem take_status_amended (c : ByteStreamController)
    (min_bytes max_bytes t : Nat) :
    (c.stopped = true → c.buffer = [] →
      sync_get_data c min_bytes max_bytes t =
        some (⟨[], ErrorCode.ControllerStopped, 0, 0⟩, c)) ∧
    (c.stopped = true → c.buffer ≠ [] →
      ∀ r c', sync_get_data c min_bytes max_bytes t = some (r, c') →
        r.error = ErrorCode.NoError) ∧
    (∀ r c', sync_get_data c min_bytes max_bytes t = some (r, c') →
      r.error = ErrorCode.NoError → min_bytes ≤ r.data.length) := by
  refine ⟨?_, ?_, ?_⟩
  · intro hs he
    simp [sync_get_data, wait_pred, hs, he]
  · intro hs hne r c' heq
    rcases sync_get_data_inv heq with ⟨hp, _, _⟩ | ⟨_, he, _, _⟩ | ⟨_, hr, _⟩
    · rw [wait_pred, hs] at hp
      simp at hp
    · exact absurd he hne
    · rw [hr]
  · intro r c' heq herr
    rcases sync_get_data_inv heq with ⟨_, hr, _⟩ | ⟨_, _, hr, _⟩ | ⟨hle, hr, _⟩
    · rw [hr] at herr
      simp at herr
    · rw [hr] at herr
      simp at herr
    · rw [hr]
      simp only [List.length_take]
      rw [Nat.min_eq_left hle]
      exact Nat.le_max_right _ _

/-- Witness for `take_status_amended` at a concrete stopped-and-empty
controller. -/
theorem take_status_amended_witness :
    sync_get_data ⟨10, [], true⟩ 1 2 3 =
      some (⟨[], ErrorCode.ControllerStopped, 0, 0⟩, ⟨10, [], true⟩) :=
  (take_status_amended ⟨10, [], true⟩ 1 2 3).1 rfl rfl

/-- Counterexample to claim C4: a call with `min_bytes = 10 > 3 = max_bytes`
on a non-stopped controller holding 10 bytes is not rejected: it returns
`NoError` with all 10 bytes and empties the buffer, so the buffer is not
left untouched (there is no `InvalidArgument` value in `ErrorCode` at all). -/
theorem invalid_argument_counterexample :
    sync_get_data ⟨10, [0, 1, 2, 3, 4, 5, 6, 7, 8, 9], false⟩ 10 3 5 =
      some (⟨[0, 1, 2, 3, 4, 5, 6, 7, 8, 9], ErrorCode.NoError, 0, 0⟩,
            ⟨10, [], false⟩) ∧
    ([] : List Nat) ≠ [0, 1, 2, 3, 4, 5, 6, 7, 8, 9] := by
  decide

/-- Claim C4 (amended): `sync_get_data` performs no argument validation and
`ErrorCode` has no `InvalidArgument` value; a call with
`min_bytes > max_bytes` on a non-stopped controller holding at least
`min_bytes` bytes proceeds, removes exactly `min_bytes` bytes from the head
(exceeding `max_bytes`) and returns them with `NoError`. -/
theorem min_gt_max_proceeds (c : ByteStreamController)
    (min_bytes max_bytes t : Nat) (hgt : max_bytes < min_bytes)
    (hs : c.stopped = false) (hlen : min_bytes ≤ c.buffer.length) :
    sync_get_data c min_bytes max_bytes t =
      some (⟨c.buffer.take min_bytes, ErrorCode.NoError, 0,
               c.buffer.length - min_bytes⟩,
            { c with buffer := c.buffer.drop min_bytes }) := by
  have hact : actual_bytes c min_bytes max_bytes = min_bytes := by
    apply Nat.max_eq_right
    exact le_trans (Nat.min_le_right _ _) (Nat.le_of_lt hgt)
  have hp : wait_pred c min_bytes = true := by
    simp [wait_pred, hs, hlen]
  simp [sync_get_data, hp, hs, hact, hlen, List.length_drop]

/-- Witness for `min_gt_max_proceeds` at a concrete input: `min_bytes = 4`,
`max_bytes = 2`, buffer `[1,2,3,4]`. -/
theorem min_gt_max_proceeds_witness :
    sync_get_data ⟨6, [1, 2, 3, 4], false⟩ 4 2 9 =
      some (⟨List.take 4 [1, 2, 3, 4], ErrorCode.NoError, 0,
               List.length ([1, 2, 3, 4] : List Nat) - 4⟩,
            ⟨6, List.drop 4 [1, 2, 3, 4], false⟩) :=
  min_gt_max_proceeds ⟨6, [1, 2, 3, 4], false⟩ 4 2 9 (by decide) rfl (by decide)

/-- Counterexample to claim C5: the constructor performs no capacity check:
`create 0` succeeds and yields a usable controller — an empty append returns
`NoError`, and a `sync_get_data` with `min_bytes = 0` returns `NoError` with
empty data. -/
theorem create_zero_capacity_counterexample :
    create 0 = ⟨0, [], false⟩ ∧
    async_add_data (create 0) [] = (ErrorCode.NoError, create 0) ∧
    sync_get_data (create 0) 0 5 7 =
      some (⟨[], ErrorCode.NoError, 0, 0⟩, create 0) := by
  decide

/-- Claim C5 (amended): construction performs no validation of the capacity:
for every capacity, including 0, the constructor succeeds and yields a
controller in its normal initial state (empty buffer, not stopped). -/
theorem create_no_validation (n : Nat) :
    (create n).max_buffer_size = n ∧ (create n).buffer = [] ∧
    (create n).stopped = false :=
  ⟨rfl, rfl, rfl⟩

/-- Claim C6: an `async_add_data` on a non-stopped controller whose data
would overflow the capacity returns `BufferOverflow` and leaves the state —
in particular the buffer — completely unchanged. -/
theorem async_add_data_overflow_rejects (c : ByteStreamController)
    (data : List Nat) (hs : c.stopped = false)
    (ho : c.max_buffer_size < c.buffer.length + data.length) :
    async_add_data c data = (ErrorCode.BufferOverflow, c) := by
  simp [async_add_data, hs, ho]

/-- Witness for `async_add_data_overflow_rejects`: appending 2 bytes to a
fresh controller of capacity 1. -/
theorem async_add_data_overflow_rejects_witness :
    async_add_data (create 1) [0, 0] = (ErrorCode.BufferOverflow, create 1) :=
  async_add_data_overflow_rejects (create 1) [0, 0] rfl (by decide)

/-- Claim C9: an `async_add_data` on a stopped controller fails immediately
with `ControllerStopped` and leaves the state unchanged. -/
theorem async_add_data_stopped_rejects (c : ByteStreamController)
    (data : List Nat) (hs : c.stopped = true) :
    async_add_data c data = (ErrorCode.ControllerStopped, c) := by
  simp [async_add_data, hs]

/-- Witness for `async_add_data_stopped_rejects` at a concrete stopped
controller. -/
theorem async_add_data_stopped_rejects_witness :
    async_add_data ⟨5, [1], true⟩ [2, 3] =
      (ErrorCode.ControllerStopped, ⟨5, [1], true⟩) :=
  async_add_data_stopped_rejects ⟨5, [1], true⟩ [2, 3] rfl

/-- Claim C10: a `sync_get_data` on a non-stopped controller whose buffer
holds fewer than `min_bytes` bytes (so the wait predicate stays false until
the timeout) returns `Timeout` with empty data and leaves the state —
content and length of the buffer — untouched. -/
theorem sync_get_data_timeout_untouched (c : ByteStreamController)
    (min_bytes max_bytes t : Nat) (hs : c.stopped = false)
    (hlt : c.buffer.length < min_bytes) :
    sync_get_data c min_bytes max_bytes t =
      some (⟨[], ErrorCode.Timeout, 0, c.buffer.length⟩, c) := by
  have hp : wait_pred c min_bytes = false := by
    simp only [wait_pred, hs, Bool.false_or, decide_eq_false_iff_not]
    omega
  simp [sync_get_data, hp]

/-- Witness for `sync_get_data_timeout_untouched`: `take(min_bytes = 5,
max_bytes = 5, timeout = 50)` on a fresh empty controller. -/
theorem sync_get_data_timeout_untouched_witness :
    sync_get_data (create 10) 5 5 50 =
      some (⟨[], ErrorCode.Timeout, 0, (create 10).buffer.length⟩, create 10) :=
  sync_get_data_timeout_untouched (create 10) 5 5 50 rfl (by decide)

/-- Claim C7: in every state reachable from a freshly constructed controller
by any sequence of the public operations, the buffer length is between 0 and
the capacity. -/
theorem reachable_buffer_le_capacity (cap : Nat) (c : ByteStreamController)
    (h : Reachable cap c) :
    0 ≤ c.buffer.length ∧ c.buffer.length ≤ c.max_buffer_size := by
  induction h with
  | init => simp [create]
  | add c data _ ih =>
    by_cases hs : c.stopped
    · simp [async_add_data, hs]
      exact ih.2
    · by_cases ho : c.buffer.length + data.length > c.max_buffer_size
      · simp [async_add_data, hs, ho]
        exact ih.2
      · refine ⟨Nat.zero_le _, ?_⟩
        simp [async_add_data, hs, ho, List.length_append]
        omega
  | get c min_bytes max_bytes t r c' _ heq ih =>
    rcases sync_get_data_inv heq with ⟨_, _, hc⟩ | ⟨_, _, _, hc⟩ | ⟨_, _, hc⟩
    · rw [hc]; exact ih
    · rw [hc]; exact ih
    · rw [hc]
      refine ⟨Nat.zero_le _, ?_⟩
      simp only [List.length_drop]
      exact le_trans (Nat.sub_le _ _) ih.2
  | stop c _ ih => exact ih
  | start c _ ih => exact ih

/-- Witness for `reachable_buffer_le_capacity`: the state reached from a
fresh capacity-5 controller after one append of 3 bytes. -/
theorem reachable_buffer_le_capacity_witness :
    0 ≤ ((async_add_data (create 5) [1, 2, 3]).2).buffer.length ∧
    ((async_add_data (create 5) [1, 2, 3]).2).buffer.length ≤
      ((async_add_data (create 5) [1, 2, 3]).2).max_buffer_size :=
  reachable_buffer_le_capacity 5 _
    (Reachable.add (create 5) [1, 2, 3] Reachable.init)

/-- A run of appends that fits in the remaining space of a non-stopped
controller succeeds call by call and appends the concatenation at the
tail. -/
theorem appendSeq_of_fits (chunks : List (List Nat))
    (c : ByteStreamController) (hs : c.stopped = false)
    (hfit : c.buffer.length + (chunks.map List.length).sum ≤
      c.max_buffer_size) :
    appendSeqOk c chunks = true ∧
    appendSeq c chunks = { c with buffer := c.buffer ++ chunks.flatten } := by
  induction chunks generalizing c with
  | nil =>
    exact ⟨rfl, by simp [appendSeq]⟩
  | cons d rest ih =>
    simp only [List.map_cons, List.sum_cons] at hfit
    have hno : ¬ (c.buffer.length + d.length > c.max_buffer_size) := by omega
    have hstep : async_add_data c d =
        (ErrorCode.NoError, { c with buffer := c.buffer ++ d }) := by
      simp [async_add_data, hs, hno]
    have ih' := ih { c with buffer := c.buffer ++ d } hs
      (by simp only [List.length_append]; omega)
    refine ⟨?_, ?_⟩
    · show (decide ((async_add_data c d).1 = ErrorCode.NoError) &&
          appendSeqOk (async_add_data c d).2 rest) = true
      rw [hstep]
      simp only [Bool.and_eq_true, decide_eq_true_eq]
      exact ⟨trivial, ih'.1⟩
    · show List.foldl (fun acc d => (async_add_data acc d).2)
          ((async_add_data c d).2) rest = _
      rw [hstep]
      have h2 := ih'.2
      simp only [appendSeq] at h2
      rw [h2]
      simp [List.append_assoc]

/-- Taking exactly the whole buffer: with `min_bytes` equal to the buffer
length and `max_bytes` at least it, a non-stopped controller hands the whole
buffer back and is left empty. -/
theorem sync_get_data_all (c : ByteStreamController) (max_bytes t : Nat)
    (hs : c.stopped = false) (hmax : c.buffer.length ≤ max_bytes) :
    sync_get_data c c.buffer.length max_bytes t =
      some (⟨c.buffer, ErrorCode.NoError, 0, 0⟩, { c with buffer := [] }) := by
  have hact : actual_bytes c c.buffer.length max_bytes = c.buffer.length := by
    simp [actual_bytes, bytes_to_take, Nat.min_eq_left hmax]
  have hp : wait_pred c c.buffer.length = true := by
    simp [wait_pred]
  simp [sync_get_data, hp, hs, hact, List.take_length, List.drop_length]

/-- Claim C8: after a sequence of appends whose total length fits the
capacity of a fresh controller, every append succeeds, and a single
`sync_get_data` with `min_bytes` equal to the total and `max_bytes` at least
the total returns exactly the concatenation of the appended chunks in call
order and empties the buffer. -/
theorem fifo_round_trip (cap max_bytes t : Nat) (chunks : List (List Nat))
    (htot : (chunks.map List.length).sum ≤ cap)
    (hmax : (chunks.map List.length).sum ≤ max_bytes) :
    appendSeqOk (create cap) chunks = true ∧
    sync_get_data (appendSeq (create cap) chunks)
        ((chunks.map List.length).sum) max_bytes t =
      some (⟨chunks.flatten, ErrorCode.NoError, 0, 0⟩, create cap) := by
  obtain ⟨hok, happ⟩ := appendSeq_of_fits chunks (create cap) rfl
    (by simpa [create] using htot)
  refine ⟨hok, ?_⟩
  rw [happ]
  have hbuf : ({ create cap with
      buffer := (create cap).buffer ++ chunks.flatten } : ByteStreamController)
      = ⟨cap, chunks.flatten, false⟩ := by
    simp [create]
  rw [hbuf]
  have hlen : (chunks.flatten).length = (chunks.map List.length).sum :=
    List.length_flatten chunks
  rw [← hlen]
  exact sync_get_data_all ⟨cap, chunks.flatten, false⟩ max_bytes t rfl
    (by rw [hlen]; exact hmax)

/-- Witness for `fifo_round_trip`: two appends `[1,2]` then `[3]` into a
fresh capacity-10 controller, then one take of all 3 bytes. -/
theorem fifo_round_trip_witness :
    appendSeqOk (create 10) [[1, 2], [3]] = true ∧
    sync_get_data (appendSeq (create 10) [[1, 2], [3]])
        (([[1, 2], [3]].map List.length).sum) 5 7 =
      some (⟨[[1, 2], [3]].flatten, ErrorCode.NoError, 0, 0⟩, create 10) :=
  fifo_round_trip 10 5 7 [[1, 2], [3]] (by decide) (by decide)

end ByteStreamController
